import Mathlib

/-!
# Verification of `sunxi_hdmi_fb.c`

A shallow embedding of the core dispatch / backend logic of the
`sunxi_hdmi_fb` display-control utility, together with theorems settling
the specification claims about it.

Modelling conventions:

* Device interaction (the `ioctl` calls on `/dev/disp`, and the
  open/`FBIOGET_VSCREENINFO`/`FBIOPUT_VSCREENINFO`/`FBIOGET_FSCREENINFO`
  calls on `/dev/fb0`) is represented by an oracle `Env` whose result
  functions may depend on the full history of device calls made so far
  (the `Trace`).  Every function of the C source that touches the device
  is translated to a Lean function that threads the trace explicitly and
  returns its C result together with the extended trace.
* C `int` / `long` values are modelled as `Int`; `uint32_t` values that
  are stored into kernel structures are reduced modulo `2^32` exactly
  where the C performs an (implicit) conversion.
* The global variables `g_screen`, `g_force` and `g_de_version` are
  threaded as explicit parameters (`scr`, `force`, `ver`); `main` opens
  the display device before dispatching any command, so the embedded
  command handlers assume an open descriptor, as the source guarantees.
* File reads that are not device calls (`/proc/cpuinfo`,
  `/sys/class/switch/hdmi/state`) are plain oracle fields.
-/

/-- Display-engine generation (`de_version_t` in the source). -/
inductive DeVersion where
  | unknown
  | v1
  | v2
  deriving Repr, DecidableEq

/-- `struct fb_var_screeninfo`, restricted to the fields the program
reads or writes. All fields are `__u32` in the kernel header. -/
structure VInfo where
  xres : Int
  yres : Int
  xres_virtual : Int
  yres_virtual : Int
  bits_per_pixel : Int
  red_offset : Int
  red_length : Int
  green_offset : Int
  green_length : Int
  blue_offset : Int
  blue_length : Int
  transp_offset : Int
  transp_length : Int
  deriving Repr, DecidableEq

/-- `de1_fb_create_para_t` from the source (all fields `__u32` or
enumerations; zero-initialised by `memset` before population). -/
structure De1FbCreatePara where
  fb_mode : Int
  mode : Int
  buffer_num : Int
  width : Int
  height : Int
  output_width : Int
  output_height : Int
  primary_screen_id : Int
  aux_output_width : Int
  aux_output_height : Int
  line_length : Int
  smem_len : Int
  ch1_offset : Int
  ch2_offset : Int
  deriving Repr, DecidableEq

/-- `de2_output` : the structure filled in by `DISP_CMD_GET_OUTPUT`. -/
structure De2Output where
  type : Int
  mode : Int
  deriving Repr, DecidableEq

/-- One device call, as observed at the device boundary: a `/dev/disp`
ioctl with its four-word argument vector, the DE1 `FB_REQUEST` ioctl
(whose second word is a pointer to a `de1_fb_create_para_t`, recorded
structurally), or one of the `/dev/fb0` operations. -/
inductive Event where
  | disp (cmd : Nat) (args : List Int)
  | dispFbReq (fbId : Int) (para : De1FbCreatePara)
  | fbOpen
  | fbGetV
  | fbPutV (v : VInfo)
  | fbGetF
  deriving Repr, DecidableEq

/-- The history of device calls made so far. -/
abbrev Trace := List Event

/-- Oracle for the environment the program runs against.  Each result
function receives the trace of device calls made *before* the call it
answers, so results may depend on device state. -/
structure Env where
  /-- return value of a `/dev/disp` ioctl with a plain argument vector -/
  dispRes : Trace → Nat → List Int → Int
  /-- `errno` observed after that ioctl -/
  dispErrno : Trace → Nat → List Int → Int
  /-- return value of the DE1 `FB_REQUEST` ioctl -/
  fbReqRes : Trace → Int → De1FbCreatePara → Int
  /-- result of `DISP_CMD_GET_OUTPUT`: `none` models a negative return,
  `some o` a non-negative return that filled in `o` -/
  outputRes : Trace → Option De2Output
  /-- whether `open("/dev/fb0")` succeeds -/
  fbOpenOk : Trace → Bool
  /-- result of `FBIOGET_VSCREENINFO`: `none` models failure -/
  fbGetVRes : Trace → Option VInfo
  /-- return value of `FBIOPUT_VSCREENINFO` for the written structure -/
  fbPutVRes : Trace → VInfo → Int
  /-- whether `FBIOGET_FSCREENINFO` succeeds -/
  fbGetFRes : Trace → Bool
  /-- lines of `/proc/cpuinfo`; `none` models `fopen` failure -/
  cpuinfoLines : Option (List String)
  /-- integer read from `/sys/class/switch/hdmi/state`, if readable -/
  sysfsHdmi : Option Int

/-- reduce an `Int` as C does when converting to `uint32_t` -/
def u32 (n : Int) : Int := n.emod 4294967296

/-- convert a `uint32_t` value to a C `int` (two's complement) -/
def i32ofU32 (n : Int) : Int :=
  if u32 n < 2147483648 then u32 n else u32 n - 4294967296

/-! ## ioctl command codes (from the `#define`s in the source) -/

def DE1_CMD_SCN_GET_WIDTH : Nat := 0x08
def DE1_CMD_SCN_GET_HEIGHT : Nat := 0x09
def DE1_CMD_GET_OUTPUT_TYPE : Nat := 0x0a
def DE1_CMD_HDMI_ON : Nat := 0x1c0
def DE1_CMD_HDMI_OFF : Nat := 0x1c1
def DE1_CMD_HDMI_SET_MODE : Nat := 0x1c2
def DE1_CMD_HDMI_GET_MODE : Nat := 0x1c3
def DE1_CMD_HDMI_SUPPORT_MODE : Nat := 0x1c4
def DE1_CMD_HDMI_GET_HPD : Nat := 0x1c5
def DE1_CMD_FB_REQUEST : Nat := 0x280
def DE1_CMD_FB_RELEASE : Nat := 0x281

def DE2_CMD_GET_SCN_WIDTH : Nat := 0x07
def DE2_CMD_GET_SCN_HEIGHT : Nat := 0x08
def DE2_CMD_GET_OUTPUT_TYPE : Nat := 0x09
def DE2_CMD_DEVICE_SWITCH : Nat := 0x0f
def DE2_CMD_GET_OUTPUT : Nat := 0x10
def DE2_CMD_HDMI_SUPPORT_MODE : Nat := 0xc4

def ENOTTY : Int := 25

/-- `DISP_OUTPUT_TYPE_HDMI` -/
def DISP_OUTPUT_TYPE_HDMI : Int := 4

/-- `DISP_OUTPUT_TYPE_NONE` -/
def DISP_OUTPUT_TYPE_NONE : Int := 0

/-- `DEFAULT_HDMI_MODE` = `DISP_TV_MOD_720P_50HZ` = 4 -/
def DEFAULT_HDMI_MODE : Int := 4

/-- `DISP_TV_MODE_NUM` = 0x1f -/
def DISP_TV_MODE_NUM : Int := 31

/-! ## Device-call primitives -/

/-- `disp_ioctl` (result and errno). The source wrapper preserves errno
around its debug prints; the returned pair is (return value, errno). -/
def dispIoctlE (env : Env) (tr : Trace) (cmd : Nat) (args : List Int) :
    (Int × Int) × Trace :=
  ((env.dispRes tr cmd args, env.dispErrno tr cmd args),
   tr ++ [Event.disp cmd args])

/-- `disp_ioctl`, errno ignored (as at most call sites). -/
def dispIoctl (env : Env) (tr : Trace) (cmd : Nat) (args : List Int) :
    Int × Trace :=
  (env.dispRes tr cmd args, tr ++ [Event.disp cmd args])

/-- `open(FB_DEV, ...)` -/
def fbOpenCall (env : Env) (tr : Trace) : Bool × Trace :=
  (env.fbOpenOk tr, tr ++ [Event.fbOpen])

/-- `ioctl(fd, FBIOGET_VSCREENINFO, &vinfo)` -/
def fbGetVCall (env : Env) (tr : Trace) : Option VInfo × Trace :=
  (env.fbGetVRes tr, tr ++ [Event.fbGetV])

/-- `ioctl(fd, FBIOPUT_VSCREENINFO, &vinfo)` -/
def fbPutVCall (env : Env) (tr : Trace) (v : VInfo) : Int × Trace :=
  (env.fbPutVRes tr v, tr ++ [Event.fbPutV v])

/-- `ioctl(fd, FBIOGET_FSCREENINFO, &finfo)` -/
def fbGetFCall (env : Env) (tr : Trace) : Bool × Trace :=
  (env.fbGetFRes tr, tr ++ [Event.fbGetF])

/-! ## Mode catalog -/

/-- `mode_info_t` (the sentinel row of the C array is not part of the
catalog; the C loops stop at it). -/
structure mode_info_t where
  mode : Int
  name : String
  width : Int
  height : Int
  refresh : Int
  deriving Repr, DecidableEq

/-- `mode_table` from the source, in source order, without the
terminating sentinel entry. -/
def mode_table : List mode_info_t :=
  [ ⟨0,  "480i",    720,  480, 60⟩,
    ⟨1,  "576i",    720,  576, 50⟩,
    ⟨2,  "480p",    720,  480, 60⟩,
    ⟨3,  "576p",    720,  576, 50⟩,
    ⟨4,  "720p50",  1280, 720, 50⟩,
    ⟨5,  "720p60",  1280, 720, 60⟩,
    ⟨6,  "1080i50", 1920, 1080, 50⟩,
    ⟨7,  "1080i60", 1920, 1080, 60⟩,
    ⟨8,  "1080p24", 1920, 1080, 24⟩,
    ⟨9,  "1080p50", 1920, 1080, 50⟩,
    ⟨10, "1080p60", 1920, 1080, 60⟩,
    ⟨26, "1080p25", 1920, 1080, 25⟩,
    ⟨27, "1080p30", 1920, 1080, 30⟩,
    ⟨28, "2160p30", 3840, 2160, 30⟩,
    ⟨29, "2160p25", 3840, 2160, 25⟩,
    ⟨30, "2160p24", 3840, 2160, 24⟩ ]

/-- `find_mode_by_resolution`: first table entry matching width/height,
where refresh 0 acts as a wildcard. -/
def find_mode_by_resolution (w h refresh : Int) : Option mode_info_t :=
  mode_table.find? fun m =>
    m.width == w && m.height == h && (refresh == 0 || m.refresh == refresh)

/-- case-insensitive string equality (`strcasecmp(..) == 0`) -/
def strcaseEq (a b : String) : Bool :=
  a.data.map Char.toLower == b.data.map Char.toLower

/-- `find_mode_by_name` (case-insensitive). -/
def find_mode_by_name (name : String) : Option mode_info_t :=
  mode_table.find? fun m => strcaseEq m.name name

/-- `get_mode_info`: lookup by mode identifier. -/
def get_mode_info (mode : Int) : Option mode_info_t :=
  mode_table.find? fun m => m.mode == mode

/-! ## Hardware generation detection -/

/-- `p.isPrefixOf s` for character lists (used to build `strstr`). -/
def prefixOfB : List Char → List Char → Bool
  | [], _ => true
  | _ :: _, [] => false
  | a :: s, b :: t => a == b && prefixOfB s t

/-- `strstr(hay, needle) != NULL` -/
def strstrB (hay needle : List Char) : Bool :=
  match hay with
  | [] => needle == []
  | _ :: t => prefixOfB needle hay || strstrB t needle

/-- does the C string `hay` contain the literal `needle`? -/
def containsLit (hay needle : String) : Bool := strstrB hay.data needle.data

/-- the body of `detect_soc_from_cpuinfo`'s line loop: find the first
line containing "Hardware" and classify it (the C returns from inside
the loop on the first such line). -/
def scanCpuinfoLines : List String → DeVersion
  | [] => .unknown
  | l :: rest =>
    if containsLit l "Hardware" then
      if containsLit l "sun7i" || containsLit l "A20" ||
         containsLit l "sun4i" || containsLit l "A10" then .v1
      else if containsLit l "sun8i" || containsLit l "H3" ||
              containsLit l "H5" || containsLit l "sun50i" ||
              containsLit l "A64" then .v2
      else .unknown
    else scanCpuinfoLines rest

/-- `detect_soc_from_cpuinfo` -/
def detect_soc_from_cpuinfo (env : Env) : DeVersion :=
  match env.cpuinfoLines with
  | none => .unknown
  | some lines => scanCpuinfoLines lines

/-- `detect_by_ioctl_probe`: probe a DE1-specific then a DE2-specific
command; any response other than `ENOTTY` classifies the generation. -/
def detect_by_ioctl_probe (env : Env) (tr : Trace) : DeVersion × Trace :=
  let (re1, tr1) := dispIoctlE env tr DE1_CMD_HDMI_GET_HPD [0, 0, 0, 0]
  if re1.1 ≥ 0 || re1.2 ≠ ENOTTY then (.v1, tr1)
  else
    let (re2, tr2) := dispIoctlE env tr1 DE2_CMD_HDMI_SUPPORT_MODE [0, 5, 0, 0]
    if re2.1 ≥ 0 || re2.2 ≠ ENOTTY then (.v2, tr2)
    else (.unknown, tr2)

/-- `detect_de_version`: cpuinfo first, then ioctl probing, then the
documented DE1 default. -/
def detect_de_version (env : Env) (tr : Trace) : DeVersion × Trace :=
  let ver := detect_soc_from_cpuinfo env
  if ver ≠ .unknown then (ver, tr)
  else
    let (ver2, tr2) := detect_by_ioctl_probe env tr
    if ver2 ≠ .unknown then (ver2, tr2)
    else (.v1, tr2)

/-! ## DE1 (A20) backend -/

/-- `de1_get_screen_size`: two separate width/height queries; a negative
return from either aborts with failure. On success the out-parameters
hold the (non-negative) ioctl returns, modelled as `some (w, h)`. -/
def de1_get_screen_size (env : Env) (scr : Int) (tr : Trace) :
    Option (Int × Int) × Trace :=
  let (r1, tr1) := dispIoctl env tr DE1_CMD_SCN_GET_WIDTH [scr, 0, 0, 0]
  if r1 < 0 then (none, tr1)
  else
    let (r2, tr2) := dispIoctl env tr1 DE1_CMD_SCN_GET_HEIGHT [scr, 0, 0, 0]
    if r2 < 0 then (none, tr2) else (some (r1, r2), tr2)

/-- `de1_get_output_type` -/
def de1_get_output_type (env : Env) (scr : Int) (tr : Trace) : Int × Trace :=
  dispIoctl env tr DE1_CMD_GET_OUTPUT_TYPE [scr, 0, 0, 0]

/-- `de1_hdmi_get_hpd` -/
def de1_hdmi_get_hpd (env : Env) (scr : Int) (tr : Trace) : Int × Trace :=
  dispIoctl env tr DE1_CMD_HDMI_GET_HPD [scr, 0, 0, 0]

/-- `de1_hdmi_mode_supported`: 1 iff the raw ioctl returns positive. -/
def de1_hdmi_mode_supported (env : Env) (scr mode : Int) (tr : Trace) :
    Int × Trace :=
  let (ret, tr1) := dispIoctl env tr DE1_CMD_HDMI_SUPPORT_MODE [scr, mode, 0, 0]
  (if ret > 0 then 1 else 0, tr1)

/-- `de1_hdmi_get_mode` -/
def de1_hdmi_get_mode (env : Env) (scr : Int) (tr : Trace) : Int × Trace :=
  let (ret, tr1) := dispIoctl env tr DE1_CMD_HDMI_GET_MODE [scr, 0, 0, 0]
  (if ret < 0 then -1 else ret, tr1)

/-- `de1_hdmi_off` -/
def de1_hdmi_off (env : Env) (scr : Int) (tr : Trace) : Int × Trace :=
  dispIoctl env tr DE1_CMD_HDMI_OFF [scr, 0, 0, 0]

/-- `de1_hdmi_on` -/
def de1_hdmi_on (env : Env) (scr : Int) (tr : Trace) : Int × Trace :=
  dispIoctl env tr DE1_CMD_HDMI_ON [scr, 0, 0, 0]

/-- `de1_hdmi_set_mode` -/
def de1_hdmi_set_mode (env : Env) (scr mode : Int) (tr : Trace) : Int × Trace :=
  dispIoctl env tr DE1_CMD_HDMI_SET_MODE [scr, mode, 0, 0]

/-- `de1_hdmi_init`: support check (unless forced), then off (result
ignored), set mode (failure surfaced as -1), then on (its result is the
overall result). -/
def de1_hdmi_init (env : Env) (scr : Int) (force : Bool) (mode : Int)
    (tr : Trace) : Int × Trace :=
  let check : Int × Trace :=
    if !force then
      let (sup, tr1) := de1_hdmi_mode_supported env scr mode tr
      if sup == 0 then (-1, tr1) else (0, tr1)
    else (0, tr)
  if check.1 == -1 then (-1, check.2)
  else
    let (_, tr2) := de1_hdmi_off env scr check.2
    let (rs, tr3) := de1_hdmi_set_mode env scr mode tr2
    if rs < 0 then (-1, tr3)
    else de1_hdmi_on env scr tr3

/-- `de1_fb_release` -/
def de1_fb_release (env : Env) (fbId : Int) (tr : Trace) : Int × Trace :=
  dispIoctl env tr DE1_CMD_FB_RELEASE [fbId, 0, 0, 0]

/-- `de1_fb_request` (args carry a pointer to the creation structure,
recorded structurally in the trace) -/
def de1_fb_request (env : Env) (fbId : Int) (para : De1FbCreatePara)
    (tr : Trace) : Int × Trace :=
  (env.fbReqRes tr fbId para, tr ++ [Event.dispFbReq fbId para])

/-- `de1_setup_fb_with_scaling`: release (result ignored), then request
a framebuffer whose work mode is SCALER (4) iff the source and
destination dimensions differ, else NORMAL (0). -/
def de1_setup_fb_with_scaling (env : Env) (scr : Int)
    (fbId fb_w fb_h scn_w scn_h : Int) (depth : Int) (tr : Trace) :
    Int × Trace :=
  let needs_scaling : Bool := fb_w != scn_w || fb_h != scn_h
  let (_, tr1) := de1_fb_release env fbId tr
  let para : De1FbCreatePara :=
    { fb_mode := 0
      mode := if needs_scaling then 4 else 0
      buffer_num := 1
      width := fb_w
      height := fb_h
      output_width := scn_w
      output_height := scn_h
      primary_screen_id := scr
      aux_output_width := 0, aux_output_height := 0
      line_length := 0, smem_len := 0, ch1_offset := 0, ch2_offset := 0 }
  let (rq, tr2) := de1_fb_request env fbId para tr1
  let _ := depth
  if rq < 0 then (-1, tr2) else (0, tr2)

/-! ## DE2 (H3) backend -/

/-- `de2_get_screen_size` -/
def de2_get_screen_size (env : Env) (scr : Int) (tr : Trace) :
    Option (Int × Int) × Trace :=
  let (r1, tr1) := dispIoctl env tr DE2_CMD_GET_SCN_WIDTH [scr, 0, 0, 0]
  if r1 < 0 then (none, tr1)
  else
    let (r2, tr2) := dispIoctl env tr1 DE2_CMD_GET_SCN_HEIGHT [scr, 0, 0, 0]
    if r2 < 0 then (none, tr2) else (some (r1, r2), tr2)

/-- `de2_get_output_type` -/
def de2_get_output_type (env : Env) (scr : Int) (tr : Trace) : Int × Trace :=
  dispIoctl env tr DE2_CMD_GET_OUTPUT_TYPE [scr, 0, 0, 0]

/-- `de2_hdmi_mode_supported` -/
def de2_hdmi_mode_supported (env : Env) (scr mode : Int) (tr : Trace) :
    Int × Trace :=
  let (ret, tr1) := dispIoctl env tr DE2_CMD_HDMI_SUPPORT_MODE [scr, mode, 0, 0]
  (if ret > 0 then 1 else 0, tr1)

/-- `de2_hdmi_get_hpd`: sysfs only, no device call; -1 when absent. -/
def de2_hdmi_get_hpd (env : Env) : Int :=
  match env.sysfsHdmi with
  | some s => s
  | none => -1

/-- `de2_hdmi_get_mode`: `DISP_CMD_GET_OUTPUT` fills a `de2_output`
structure; negative return yields -1, else the (u32) mode field cast to
a C `int`. `args[1]` holds a pointer to the structure (recorded as 0). -/
def de2_hdmi_get_mode (env : Env) (scr : Int) (tr : Trace) : Int × Trace :=
  let res := env.outputRes tr
  let tr1 := tr ++ [Event.disp DE2_CMD_GET_OUTPUT [scr, 0, 0, 0]]
  match res with
  | none => (-1, tr1)
  | some o => (i32ofU32 o.mode, tr1)

/-- `de2_device_switch` -/
def de2_device_switch (env : Env) (scr ty mode : Int) (tr : Trace) :
    Int × Trace :=
  dispIoctl env tr DE2_CMD_DEVICE_SWITCH [scr, ty, mode, 0]

/-- `de2_hdmi_init`: support check (unless forced), then one atomic
device switch to (HDMI, mode). -/
def de2_hdmi_init (env : Env) (scr : Int) (force : Bool) (mode : Int)
    (tr : Trace) : Int × Trace :=
  let check : Int × Trace :=
    if !force then
      let (sup, tr1) := de2_hdmi_mode_supported env scr mode tr
      if sup == 0 then (-1, tr1) else (0, tr1)
    else (0, tr)
  if check.1 == -1 then (-1, check.2)
  else de2_device_switch env scr DISP_OUTPUT_TYPE_HDMI mode check.2

/-- `de2_hdmi_off` -/
def de2_hdmi_off (env : Env) (scr : Int) (tr : Trace) : Int × Trace :=
  de2_device_switch env scr DISP_OUTPUT_TYPE_NONE 0 tr

/-- the shared color-format block of `de2_setup_fb_with_scaling` and
`fb_configure` (only depths 16, 24 and 32 touch the channel layout) -/
def setColorFormat (v : VInfo) (depth : Int) : VInfo :=
  if depth == 16 then
    { v with red_offset := 11, red_length := 5,
             green_offset := 5, green_length := 6,
             blue_offset := 0, blue_length := 5,
             transp_offset := 0, transp_length := 0 }
  else if depth == 24 || depth == 32 then
    { v with red_offset := 16, red_length := 8,
             green_offset := 8, green_length := 8,
             blue_offset := 0, blue_length := 8,
             transp_offset := if depth == 32 then 24 else 0,
             transp_length := if depth == 32 then 8 else 0 }
  else v

/-- `de2_setup_fb_with_scaling`: program the standard framebuffer
geometry (virtual height doubled for double-buffering); skip the write
when the current geometry already matches. -/
def de2_setup_fb_with_scaling (env : Env)
    (fbId fb_w fb_h scn_w scn_h : Int) (depth : Int) (tr : Trace) :
    Int × Trace :=
  let _ := fbId
  let _ := (scn_w, scn_h)
  let (ok, tr1) := fbOpenCall env tr
  if !ok then (-1, tr1)
  else
    let (vo, tr2) := fbGetVCall env tr1
    match vo with
    | none => (-1, tr2)
    | some v =>
      if v.xres != fb_w || v.yres != fb_h || v.bits_per_pixel != u32 depth then
        let v1 : VInfo :=
          { v with xres := fb_w, yres := fb_h,
                   xres_virtual := fb_w, yres_virtual := u32 (fb_h * 2),
                   bits_per_pixel := u32 depth }
        let v2 := setColorFormat v1 depth
        let (pr, tr3) := fbPutVCall env tr2 v2
        if pr < 0 then (-1, tr3) else (0, tr3)
      else (0, tr2)

/-! ## Unified dispatcher -/

/-- `get_screen_size` -/
def get_screen_size (env : Env) (scr : Int) (ver : DeVersion) (tr : Trace) :
    Option (Int × Int) × Trace :=
  match ver with
  | .v1 => de1_get_screen_size env scr tr
  | .v2 => de2_get_screen_size env scr tr
  | .unknown => (none, tr)

/-- `get_output_type` -/
def get_output_type (env : Env) (scr : Int) (ver : DeVersion) (tr : Trace) :
    Int × Trace :=
  match ver with
  | .v1 => de1_get_output_type env scr tr
  | .v2 => de2_get_output_type env scr tr
  | .unknown => (-1, tr)

/-- `hdmi_mode_supported` -/
def hdmi_mode_supported (env : Env) (scr : Int) (ver : DeVersion)
    (mode : Int) (tr : Trace) : Int × Trace :=
  match ver with
  | .v1 => de1_hdmi_mode_supported env scr mode tr
  | .v2 => de2_hdmi_mode_supported env scr mode tr
  | .unknown => (0, tr)

/-- `hdmi_get_mode` -/
def hdmi_get_mode (env : Env) (scr : Int) (ver : DeVersion) (tr : Trace) :
    Int × Trace :=
  match ver with
  | .v1 => de1_hdmi_get_mode env scr tr
  | .v2 => de2_hdmi_get_mode env scr tr
  | .unknown => (-1, tr)

/-- `hdmi_init` -/
def hdmi_init (env : Env) (scr : Int) (ver : DeVersion) (force : Bool)
    (mode : Int) (tr : Trace) : Int × Trace :=
  match ver with
  | .v1 => de1_hdmi_init env scr force mode tr
  | .v2 => de2_hdmi_init env scr force mode tr
  | .unknown => (-1, tr)

/-- `hdmi_off` -/
def hdmi_off (env : Env) (scr : Int) (ver : DeVersion) (tr : Trace) :
    Int × Trace :=
  match ver with
  | .v1 => de1_hdmi_off env scr tr
  | .v2 => de2_hdmi_off env scr tr
  | .unknown => (-1, tr)

/-- `setup_fb_with_scaling` -/
def setup_fb_with_scaling (env : Env) (scr : Int) (ver : DeVersion)
    (fbId fb_w fb_h scn_w scn_h : Int) (depth : Int) (tr : Trace) :
    Int × Trace :=
  match ver with
  | .v1 => de1_setup_fb_with_scaling env scr fbId fb_w fb_h scn_w scn_h depth tr
  | .v2 => de2_setup_fb_with_scaling env fbId fb_w fb_h scn_w scn_h depth tr
  | .unknown => (-1, tr)

/-! ## HDMI enable state machine (`hdmi_on`) -/

/-- `hdmi_on`: result, the value of `g_force` after the call, and the
trace.  The C saves `g_force`, overrides it to 1 around the fallback
`*_hdmi_init` call, and restores the saved value. -/
def hdmi_on (env : Env) (scr : Int) (ver : DeVersion) (force : Bool)
    (tr : Trace) : Int × Bool × Trace :=
  match ver with
  | .v1 =>
    let (r, tr1) := de1_hdmi_on env scr tr
    if r < 0 then
      let saved_force := force
      let force1 := true
      let (r2, tr2) := de1_hdmi_init env scr force1 DEFAULT_HDMI_MODE tr1
      let force2 := saved_force
      (r2, force2, tr2)
    else (r, force, tr1)
  | .v2 =>
    let (m, tr1) := hdmi_get_mode env scr .v2 tr
    let mode := if m ≤ 0 || m == 0 || m == 1 then DEFAULT_HDMI_MODE else m
    let saved_force := force
    let force1 := true
    let (r, tr2) := de2_hdmi_init env scr force1 mode tr1
    let force2 := saved_force
    (r, force2, tr2)
  | .unknown => (-1, force, tr)

/-! ## fbdev configuration and queries -/

/-- `fb_configure`: open `/dev/fb0`, read geometry, overwrite it with
the requested values (no depth validation), write it back, then read
the fixed info for the report. -/
def fb_configure (env : Env) (width height : Int) (depth : Int)
    (tr : Trace) : Int × Trace :=
  let (ok, tr1) := fbOpenCall env tr
  if !ok then (-1, tr1)
  else
    let (vo, tr2) := fbGetVCall env tr1
    match vo with
    | none => (-1, tr2)
    | some v =>
      let v1 : VInfo :=
        { v with xres := width, yres := height,
                 xres_virtual := width, yres_virtual := height,
                 bits_per_pixel := u32 depth }
      let v2 := setColorFormat v1 depth
      let (pr, tr3) := fbPutVCall env tr2 v2
      if pr < 0 then (-1, tr3)
      else
        let (fok, tr4) := fbGetFCall env tr3
        if !fok then (-1, tr4) else (0, tr4)

/-- `get_fb_info(&vinfo, NULL)`: open `/dev/fb0` read-only and read the
variable geometry; `none` models a -1 return. -/
def get_fb_info_v (env : Env) (tr : Trace) : Option VInfo × Trace :=
  let (ok, tr1) := fbOpenCall env tr
  if !ok then (none, tr1)
  else fbGetVCall env tr1

/-! ## Command handlers (the dispatch arms of `main`, after the
display device has been opened and the generation resolved) -/

/-- argument of `hdmi mode`: a string that parsed fully as a number, or
a non-numeric string looked up as a mode name -/
inductive ModeArg where
  | num (n : Int)
  | name (s : String)
  deriving Repr, DecidableEq

/-- decimal rendering of an `Int`, as `strtol` would have consumed it
(used only for the out-of-range numeric `hdmi mode` argument, which the
C then feeds to `find_mode_by_name`) -/
def intDecimal (n : Int) : String :=
  if n < 0 then "-" ++ String.mk (Nat.toDigits 10 n.natAbs)
  else String.mk (Nat.toDigits 10 n.toNat)

/-- the `hdmi on` arm: on success the actual mode is read back for the
report (a further device call that does not affect the result) -/
def cmd_hdmi_on (env : Env) (scr : Int) (ver : DeVersion) (force : Bool)
    (tr : Trace) : Int × Trace :=
  let (r, _, tr1) := hdmi_on env scr ver force tr
  if r == 0 then
    let (_, tr2) := hdmi_get_mode env scr ver tr1
    (r, tr2)
  else (r, tr1)

/-- the `hdmi off` arm -/
def cmd_hdmi_off (env : Env) (scr : Int) (ver : DeVersion) (tr : Trace) :
    Int × Trace :=
  hdmi_off env scr ver tr

/-- the `hdmi mode <arg>` arm.  A numeric argument inside
`[0, DISP_TV_MODE_NUM)` is initialised directly (through the catalog
when the number is a known id); a numeric argument out of range falls
through to a name lookup of its digits and, failing that, leaves the
result at 0 because the unknown-mode diagnostic only fires for
non-numeric arguments. -/
def cmd_hdmi_mode (env : Env) (scr : Int) (ver : DeVersion) (force : Bool)
    (arg : ModeArg) (tr : Trace) : Int × Trace :=
  match arg with
  | .num n =>
    if 0 ≤ n && n < DISP_TV_MODE_NUM then
      match get_mode_info n with
      | none => hdmi_init env scr ver force n tr
      | some info => hdmi_init env scr ver force info.mode tr
    else
      match find_mode_by_name (intDecimal n) with
      | some info => hdmi_init env scr ver force info.mode tr
      | none => (0, tr)
  | .name s =>
    match find_mode_by_name s with
    | some info => hdmi_init env scr ver force info.mode tr
    | none => (1, tr)

/-- the `hdmi init <WxH[@Hz]>` arm (resolution already parsed) -/
def cmd_hdmi_init (env : Env) (scr : Int) (ver : DeVersion) (force : Bool)
    (w h refresh : Int) (tr : Trace) : Int × Trace :=
  match find_mode_by_resolution w h refresh with
  | some info => hdmi_init env scr ver force info.mode tr
  | none => (1, tr)

/-- the `fb set <WxHxDEPTH>` arm (values already parsed; note that no
depth validation happens on this path) -/
def cmd_fb_set (env : Env) (w h : Int) (depth : Int) (tr : Trace) :
    Int × Trace :=
  fb_configure env w h depth tr

/-- the `scale <WxH> <WxH> <depth>` arm: the depth is validated before
any device interaction -/
def cmd_scale (env : Env) (scr : Int) (ver : DeVersion)
    (fb_w fb_h scn_w scn_h : Int) (depth : Int) (tr : Trace) : Int × Trace :=
  if depth != 16 && depth != 24 && depth != 32 then (1, tr)
  else setup_fb_with_scaling env scr ver 0 fb_w fb_h scn_w scn_h depth tr

/-- the `autoscale [depth]` arm: framebuffer geometry and screen size
are queried first; an explicit depth argument is validated only after
those queries succeed -/
def cmd_autoscale (env : Env) (scr : Int) (ver : DeVersion)
    (depthArg : Option Int) (tr : Trace) : Int × Trace :=
  let (vo, tr1) := get_fb_info_v env tr
  match vo with
  | none => (1, tr1)
  | some v =>
    let (sz, tr2) := get_screen_size env scr ver tr1
    match sz with
    | none => (1, tr2)
    | some (sw, sh) =>
      let bad := match depthArg with
        | some d => d != 16 && d != 24 && d != 32
        | none => false
      if bad then (1, tr2)
      else
        let depth := match depthArg with
          | some d => d
          | none => v.bits_per_pixel
        if v.xres == sw && v.yres == sh then (0, tr2)
        else if ver == .v2 then (0, tr2)
        else setup_fb_with_scaling env scr ver 0 v.xres v.yres sw sh depth tr2

/-- the `noscale [depth]` arm: the screen size is queried first; an
explicit depth argument is validated after that query succeeds; without
one the framebuffer is consulted for the current depth (default 32) -/
def cmd_noscale (env : Env) (scr : Int) (ver : DeVersion)
    (depthArg : Option Int) (tr : Trace) : Int × Trace :=
  let (sz, tr1) := get_screen_size env scr ver tr
  match sz with
  | none => (1, tr1)
  | some (sw, sh) =>
    match depthArg with
    | some d =>
      if d != 16 && d != 24 && d != 32 then (1, tr1)
      else setup_fb_with_scaling env scr ver 0 sw sh sw sh d tr1
    | none =>
      let (vo, tr2) := get_fb_info_v env tr1
      let depth := match vo with
        | some v => v.bits_per_pixel
        | none => 32
      setup_fb_with_scaling env scr ver 0 sw sh sw sh depth tr2

/-- the commands of `main` that can set a non-zero result (the `info`
and `debug` arms never modify `ret`, which stays 0) -/
inductive Cmd where
  | hdmiOn
  | hdmiOff
  | hdmiMode (arg : ModeArg)
  | hdmiInit (w h refresh : Int)
  | fbSet (w h : Int) (depth : Int)
  | scale (fb_w fb_h scn_w scn_h : Int) (depth : Int)
  | autoscale (depthArg : Option Int)
  | noscale (depthArg : Option Int)
  deriving Repr, DecidableEq

/-- one dispatched command of `main`, from after `disp_open()` to the
final `return ret` -/
def runCmd (env : Env) (scr : Int) (ver : DeVersion) (force : Bool) :
    Cmd → Int × Trace
  | .hdmiOn => cmd_hdmi_on env scr ver force []
  | .hdmiOff => cmd_hdmi_off env scr ver []
  | .hdmiMode arg => cmd_hdmi_mode env scr ver force arg []
  | .hdmiInit w h r => cmd_hdmi_init env scr ver force w h r []
  | .fbSet w h d => cmd_fb_set env w h d []
  | .scale fw fh sw sh d => cmd_scale env scr ver fw fh sw sh d []
  | .autoscale d => cmd_autoscale env scr ver d []
  | .noscale d => cmd_noscale env scr ver d []

/-- the process exit status produced by `return ret` from `main` (the
low eight bits of the returned `int`) -/
def exitStatus (ret : Int) : Int := ret.emod 256

/-! ## Concrete environments for evaluation -/

/-- a concrete framebuffer geometry (1280x720 at 32 bpp) -/
def vinfo0 : VInfo :=
  { xres := 1280, yres := 720, xres_virtual := 1280, yres_virtual := 1440,
    bits_per_pixel := 32,
    red_offset := 16, red_length := 8, green_offset := 8, green_length := 8,
    blue_offset := 0, blue_length := 8, transp_offset := 24, transp_length := 8 }

/-- an environment in which every device call succeeds -/
def env0 : Env :=
  { dispRes := fun _ _ _ => 0
    dispErrno := fun _ _ _ => 0
    fbReqRes := fun _ _ _ => 0
    outputRes := fun _ => some ⟨4, 5⟩
    fbOpenOk := fun _ => true
    fbGetVRes := fun _ => some vinfo0
    fbPutVRes := fun _ _ => 0
    fbGetFRes := fun _ => true
    cpuinfoLines := some ["Hardware : sun7i"]
    sysfsHdmi := some 1 }

/-- an environment in which every display ioctl fails with -1 -/
def env_fail : Env :=
  { dispRes := fun _ _ _ => -1
    dispErrno := fun _ _ _ => ENOTTY
    fbReqRes := fun _ _ _ => -1
    outputRes := fun _ => none
    fbOpenOk := fun _ => false
    fbGetVRes := fun _ => none
    fbPutVRes := fun _ _ => -1
    fbGetFRes := fun _ => false
    cpuinfoLines := none
    sysfsHdmi := none }

/-! ## Theorems for the claims -/

/-- **C5**: on both generations (and on the unknown-generation path),
`hdmi_on` restores the global force flag to exactly its entry value
before returning, on every path including the fallback/init path and on
failure of the underlying init: the temporary override never leaks. -/
theorem C5_hdmi_on_restores_force (env : Env) (scr : Int) (ver : DeVersion)
    (force : Bool) (tr : Trace) :
    (hdmi_on env scr ver force tr).2.1 = force := by
  cases ver
  · rfl
  · simp only [hdmi_on]
    split
    · rfl
    · rfl
  · rfl

/-- **C7**: for every (width, height) pair present in the mode catalog,
`find_mode_by_resolution` with refresh 0 (wildcard) returns an entry
whose width and height equal the queried pair, and that entry is the
first entry in catalog order matching the pair; in particular for
720x480 it returns the 480i entry (which precedes 480p). -/
theorem C7_resolution_wildcard :
    (∀ m ∈ mode_table, ∃ k : Fin mode_table.length,
      find_mode_by_resolution m.width m.height 0 = some (mode_table.get k) ∧
      (mode_table.get k).width = m.width ∧
      (mode_table.get k).height = m.height ∧
      ∀ j : Fin mode_table.length, j < k →
        ¬((mode_table.get j).width = m.width ∧
          (mode_table.get j).height = m.height)) ∧
    find_mode_by_resolution 720 480 0 = some ⟨0, "480i", 720, 480, 60⟩ := by
  decide

/-- **C7 witness**: the universally quantified part of
`C7_resolution_wildcard` applied to the 720p60 catalog entry. -/
theorem C7_witness :
    (⟨5, "720p60", 1280, 720, 60⟩ : mode_info_t) ∈ mode_table ∧
    ∃ k : Fin mode_table.length,
      find_mode_by_resolution 1280 720 0 = some (mode_table.get k) ∧
      (mode_table.get k).width = 1280 ∧
      (mode_table.get k).height = 720 ∧
      ∀ j : Fin mode_table.length, j < k →
        ¬((mode_table.get j).width = 1280 ∧ (mode_table.get j).height = 720) :=
  ⟨by decide, C7_resolution_wildcard.1 ⟨5, "720p60", 1280, 720, 60⟩ (by decide)⟩

/-- **C8**: for every catalog entry, a (case-insensitive) name lookup
returns that very entry, and an id lookup of that entry's mode
identifier returns it again: the round trip
`get_mode_info (find_mode_by_name name).mode` is the identity on the
catalog. -/
theorem C8_name_id_roundtrip :
    ∀ m ∈ mode_table,
      find_mode_by_name m.name = some m ∧ get_mode_info m.mode = some m := by
  decide

/-- **C8 witness**: the round trip at the 1080p60 entry. -/
theorem C8_witness :
    (⟨10, "1080p60", 1920, 1080, 60⟩ : mode_info_t) ∈ mode_table ∧
    find_mode_by_name "1080p60" = some ⟨10, "1080p60", 1920, 1080, 60⟩ ∧
    get_mode_info 10 = some ⟨10, "1080p60", 1920, 1080, 60⟩ :=
  ⟨by decide, C8_name_id_roundtrip ⟨10, "1080p60", 1920, 1080, 60⟩ (by decide)⟩

/-- **C10**: when the resolved hardware generation is still unknown,
every unified dispatcher operation fails immediately without issuing
any device call: screen-size, output-type, mode set/init, enable,
disable and scaled-framebuffer setup return -1 (screen-size modelled as
`none`), the mode-support query returns 0, and mode get returns -1. -/
theorem C10_unknown_generation (env : Env) (scr : Int) (force : Bool)
    (mode fbId fw fh sw sh depth : Int) (tr : Trace) :
    get_screen_size env scr .unknown tr = (none, tr) ∧
    get_output_type env scr .unknown tr = (-1, tr) ∧
    hdmi_mode_supported env scr .unknown mode tr = (0, tr) ∧
    hdmi_get_mode env scr .unknown tr = (-1, tr) ∧
    hdmi_init env scr .unknown force mode tr = (-1, tr) ∧
    hdmi_on env scr .unknown force tr = (-1, force, tr) ∧
    hdmi_off env scr .unknown tr = (-1, tr) ∧
    setup_fb_with_scaling env scr .unknown fbId fw fh sw sh depth tr = (-1, tr) := by
  exact ⟨rfl, rfl, rfl, rfl, rfl, rfl, rfl, rfl⟩


/-- the support-query event issued by `de1_hdmi_mode_supported` -/
def supEv (scr mode : Int) : Event :=
  Event.disp DE1_CMD_HDMI_SUPPORT_MODE [scr, mode, 0, 0]

/-- the disable event issued by `de1_hdmi_off` -/
def offEv (scr : Int) : Event := Event.disp DE1_CMD_HDMI_OFF [scr, 0, 0, 0]

/-- the set-mode event issued by `de1_hdmi_set_mode` -/
def setEv (scr mode : Int) : Event :=
  Event.disp DE1_CMD_HDMI_SET_MODE [scr, mode, 0, 0]

/-- the enable event issued by `de1_hdmi_on` -/
def onEv (scr : Int) : Event := Event.disp DE1_CMD_HDMI_ON [scr, 0, 0, 0]

/-- **C1**: for every environment and mode, `de1_hdmi_init` without the
force flag rejects a mode whose support query returns non-positive,
returning -1 and issuing no disable/set-mode/enable call (the trace
holds only the support query itself); otherwise — without force and a
positive support result, or with force (in which case the support query
is skipped) — it issues disable (result ignored), then set-mode, then
enable, aborting with -1 before the enable call if set-mode fails, and
otherwise returning exactly the enable call's result. -/
theorem C1_de1_hdmi_init_sequence (env : Env) (scr mode : Int) :
    (env.dispRes [] DE1_CMD_HDMI_SUPPORT_MODE [scr, mode, 0, 0] ≤ 0 →
      de1_hdmi_init env scr false mode [] = (-1, [supEv scr mode])) ∧
    (0 < env.dispRes [] DE1_CMD_HDMI_SUPPORT_MODE [scr, mode, 0, 0] →
      ((env.dispRes [supEv scr mode, offEv scr]
          DE1_CMD_HDMI_SET_MODE [scr, mode, 0, 0] < 0 →
        de1_hdmi_init env scr false mode [] =
          (-1, [supEv scr mode, offEv scr, setEv scr mode])) ∧
       (0 ≤ env.dispRes [supEv scr mode, offEv scr]
          DE1_CMD_HDMI_SET_MODE [scr, mode, 0, 0] →
        de1_hdmi_init env scr false mode [] =
          (env.dispRes [supEv scr mode, offEv scr, setEv scr mode]
             DE1_CMD_HDMI_ON [scr, 0, 0, 0],
           [supEv scr mode, offEv scr, setEv scr mode, onEv scr])))) ∧
    ((env.dispRes [offEv scr] DE1_CMD_HDMI_SET_MODE [scr, mode, 0, 0] < 0 →
        de1_hdmi_init env scr true mode [] =
          (-1, [offEv scr, setEv scr mode])) ∧
     (0 ≤ env.dispRes [offEv scr] DE1_CMD_HDMI_SET_MODE [scr, mode, 0, 0] →
        de1_hdmi_init env scr true mode [] =
          (env.dispRes [offEv scr, setEv scr mode]
             DE1_CMD_HDMI_ON [scr, 0, 0, 0],
           [offEv scr, setEv scr mode, onEv scr]))) := by
  refine ⟨?_, fun hpos => ⟨?_, ?_⟩, ?_, ?_⟩
  · intro hle
    have hng : ¬ (0 < env.dispRes [] DE1_CMD_HDMI_SUPPORT_MODE [scr, mode, 0, 0]) := by
      omega
    simp [de1_hdmi_init, de1_hdmi_mode_supported, dispIoctl, hng, supEv]
  · intro hset
    simp [de1_hdmi_init, de1_hdmi_mode_supported, de1_hdmi_off,
      de1_hdmi_set_mode, dispIoctl, hpos, supEv, offEv, setEv] at hset ⊢
    simp [hset]
  · intro hset
    have hns : ¬ (env.dispRes [supEv scr mode, offEv scr]
        DE1_CMD_HDMI_SET_MODE [scr, mode, 0, 0] < 0) := by omega
    simp [de1_hdmi_init, de1_hdmi_mode_supported, de1_hdmi_off,
      de1_hdmi_set_mode, de1_hdmi_on, dispIoctl, hpos, supEv, offEv, setEv,
      onEv] at hns ⊢
    simp [hns]
  · intro hset
    simp [de1_hdmi_init, de1_hdmi_off, de1_hdmi_set_mode, dispIoctl,
      offEv, setEv] at hset ⊢
    simp [hset]
  · intro hset
    have hns : ¬ (env.dispRes [offEv scr]
        DE1_CMD_HDMI_SET_MODE [scr, mode, 0, 0] < 0) := by omega
    simp [de1_hdmi_init, de1_hdmi_off, de1_hdmi_set_mode, de1_hdmi_on,
      dispIoctl, offEv, setEv, onEv] at hns ⊢
    simp [hns]

/-- **C1 witness**: in the all-failing environment, `de1_hdmi_init`
without force on mode 5 rejects with -1 after only the support query. -/
theorem C1_witness :
    de1_hdmi_init env_fail 0 false 5 [] = (-1, [supEv 0 5]) :=
  (C1_de1_hdmi_init_sequence env_fail 0 5).1 (by decide)

/-- the DE1-specific probe event of `detect_by_ioctl_probe` -/
def probe1Ev : Event := Event.disp DE1_CMD_HDMI_GET_HPD [0, 0, 0, 0]

/-- the DE2-specific probe event of `detect_by_ioctl_probe` -/
def probe2Ev : Event := Event.disp DE2_CMD_HDMI_SUPPORT_MODE [0, 5, 0, 0]

/-- **C2**: the generation detector follows the documented order with
first success winning: a cpuinfo identity match is returned as-is (and
no probe is issued); otherwise the DE1-specific hot-plug probe
responding with anything other than ENOTTY classifies Gen1; otherwise
the DE2-specific mode-support probe responding likewise classifies
Gen2; otherwise the default is Gen1.  Consequently the detector never
returns Unknown. -/
theorem C2_detect_order (env : Env) :
    ((detect_de_version env []).1 ≠ DeVersion.unknown) ∧
    (detect_soc_from_cpuinfo env ≠ DeVersion.unknown →
      detect_de_version env [] = (detect_soc_from_cpuinfo env, [])) ∧
    (detect_soc_from_cpuinfo env = DeVersion.unknown →
      ((env.dispRes [] DE1_CMD_HDMI_GET_HPD [0, 0, 0, 0] ≥ 0 ∨
          env.dispErrno [] DE1_CMD_HDMI_GET_HPD [0, 0, 0, 0] ≠ ENOTTY →
        detect_de_version env [] = (DeVersion.v1, [probe1Ev])) ∧
       (¬(env.dispRes [] DE1_CMD_HDMI_GET_HPD [0, 0, 0, 0] ≥ 0 ∨
          env.dispErrno [] DE1_CMD_HDMI_GET_HPD [0, 0, 0, 0] ≠ ENOTTY) →
        (env.dispRes [probe1Ev] DE2_CMD_HDMI_SUPPORT_MODE [0, 5, 0, 0] ≥ 0 ∨
          env.dispErrno [probe1Ev] DE2_CMD_HDMI_SUPPORT_MODE [0, 5, 0, 0] ≠ ENOTTY →
        detect_de_version env [] = (DeVersion.v2, [probe1Ev, probe2Ev]))) ∧
       (¬(env.dispRes [] DE1_CMD_HDMI_GET_HPD [0, 0, 0, 0] ≥ 0 ∨
          env.dispErrno [] DE1_CMD_HDMI_GET_HPD [0, 0, 0, 0] ≠ ENOTTY) →
        ¬(env.dispRes [probe1Ev] DE2_CMD_HDMI_SUPPORT_MODE [0, 5, 0, 0] ≥ 0 ∨
          env.dispErrno [probe1Ev] DE2_CMD_HDMI_SUPPORT_MODE [0, 5, 0, 0] ≠ ENOTTY) →
        detect_de_version env [] = (DeVersion.v1, [probe1Ev, probe2Ev])))) := by
  refine ⟨?_, ?_, fun hcpu => ⟨?_, ?_, ?_⟩⟩
  · by_cases hcpu : detect_soc_from_cpuinfo env = DeVersion.unknown
    · simp only [detect_de_version, detect_by_ioctl_probe, dispIoctlE, hcpu]
      split
      · simp_all
      · split
        · split <;> simp
        · split
          · split <;> simp
          · simp
    · simp [detect_de_version, hcpu]
  · intro hcpu
    simp [detect_de_version, hcpu]
  · intro hresp
    simp only [detect_de_version, detect_by_ioctl_probe, dispIoctlE, hcpu,
      ne_eq, not_true_eq_false, if_false, List.nil_append]
    rcases hresp with h | h
    · have : decide (env.dispRes [] DE1_CMD_HDMI_GET_HPD [0, 0, 0, 0] ≥ 0) = true := by
        simpa using h
      simp_all [probe1Ev]
    · simp_all [probe1Ev]
  · intro hno hresp2
    push_neg at hno
    obtain ⟨hlt1, herr1⟩ := hno
    have h1 : ¬ (0 ≤ env.dispRes [] DE1_CMD_HDMI_GET_HPD [0, 0, 0, 0]) := by
      omega
    simp only [detect_de_version, detect_by_ioctl_probe, dispIoctlE, hcpu,
      ne_eq, not_true_eq_false, if_false, List.nil_append]
    rcases hresp2 with h | h <;>
      simp only [probe1Ev, probe2Ev] at h ⊢ <;>
      simp [h1, herr1, h]
  · intro hno1 hno2
    push_neg at hno1 hno2
    obtain ⟨hlt1, herr1⟩ := hno1
    obtain ⟨hlt2, herr2⟩ := hno2
    have h1 : ¬ (0 ≤ env.dispRes [] DE1_CMD_HDMI_GET_HPD [0, 0, 0, 0]) := by
      omega
    have h2 : ¬ (0 ≤ env.dispRes [probe1Ev] DE2_CMD_HDMI_SUPPORT_MODE [0, 5, 0, 0]) := by
      omega
    simp only [detect_de_version, detect_by_ioctl_probe, dispIoctlE, hcpu,
      ne_eq, not_true_eq_false, if_false, List.nil_append]
    simp only [probe1Ev, probe2Ev] at h2 herr2 ⊢
    simp [h1, h2, herr1, herr2]

/-- **C2 witness**: with a cpuinfo line naming an A20-family SoC, the
detector returns Gen1 without issuing any probe. -/
theorem C2_witness :
    detect_de_version env0 [] = (DeVersion.v1, []) :=
  C2_detect_order env0 |>.2.1 (by decide)

/-- **C3**: with equal source and destination dimensions, the DE1 setup
issues a framebuffer-creation request whose work mode is NORMAL (0),
not SCALER (4); and the DE2 setup, when the current framebuffer
geometry already matches the requested one, issues no
`FBIOPUT_VSCREENINFO` write and succeeds (its trace holds only the open
and the geometry read). -/
theorem C3_equal_dims_no_scaler (env : Env) (scr fbId w h depth : Int) :
    (de1_setup_fb_with_scaling env scr fbId w h w h depth []).2 =
      [Event.disp DE1_CMD_FB_RELEASE [fbId, 0, 0, 0],
       Event.dispFbReq fbId
         { fb_mode := 0, mode := 0, buffer_num := 1,
           width := w, height := h, output_width := w, output_height := h,
           primary_screen_id := scr,
           aux_output_width := 0, aux_output_height := 0,
           line_length := 0, smem_len := 0,
           ch1_offset := 0, ch2_offset := 0 }] ∧
    (∀ v : VInfo, env.fbOpenOk [] = true →
      env.fbGetVRes [Event.fbOpen] = some v →
      v.xres = w → v.yres = h → v.bits_per_pixel = u32 depth →
      de2_setup_fb_with_scaling env fbId w h w h depth [] =
        (0, [Event.fbOpen, Event.fbGetV])) := by
  constructor
  · simp only [de1_setup_fb_with_scaling, de1_fb_release, de1_fb_request,
      dispIoctl, List.nil_append, List.cons_append, List.singleton_append]
    split
    · rename_i hc
      simp at hc
    · split <;> rfl
  · intro v hopen hget hx hy hb
    simp [de2_setup_fb_with_scaling, fbOpenCall, fbGetVCall, hopen, hget,
      hx, hy, hb]

/-- **C3 witness**: in the all-succeeding environment whose framebuffer
is already at 1280x720 with 32 bpp, both parts hold concretely: the DE1
request carries work mode 0, and the DE2 setup returns success without
a geometry write. -/
theorem C3_witness :
    (de1_setup_fb_with_scaling env0 0 0 1280 720 1280 720 32 []).2 =
      [Event.disp DE1_CMD_FB_RELEASE [0, 0, 0, 0],
       Event.dispFbReq 0
         { fb_mode := 0, mode := 0, buffer_num := 1,
           width := 1280, height := 720,
           output_width := 1280, output_height := 720,
           primary_screen_id := 0,
           aux_output_width := 0, aux_output_height := 0,
           line_length := 0, smem_len := 0,
           ch1_offset := 0, ch2_offset := 0 }] ∧
    de2_setup_fb_with_scaling env0 0 1280 720 1280 720 32 [] =
      (0, [Event.fbOpen, Event.fbGetV]) :=
  ⟨(C3_equal_dims_no_scaler env0 0 0 1280 720 32).1,
   (C3_equal_dims_no_scaler env0 0 0 1280 720 32).2 vinfo0
     (by decide) (by decide) (by decide) (by decide) (by decide)⟩

/-- **C9 (amended)**: neither generation's scaled-framebuffer setup
validates its dimensions: a request whose widths and heights are all
zero still proceeds straight to the device — DE1 issues the
framebuffer-release ioctl first and then the framebuffer-creation
request, DE2 opens the framebuffer device first. -/
theorem C9_no_dimension_validation (env : Env) (scr fbId depth : Int) :
    (de1_setup_fb_with_scaling env scr fbId 0 0 0 0 depth []).2.head? =
      some (Event.disp DE1_CMD_FB_RELEASE [fbId, 0, 0, 0]) ∧
    (∃ p : De1FbCreatePara,
      Event.dispFbReq fbId p ∈
        (de1_setup_fb_with_scaling env scr fbId 0 0 0 0 depth []).2) ∧
    (de2_setup_fb_with_scaling env fbId 0 0 0 0 depth []).2.head? =
      some Event.fbOpen := by
  refine ⟨?_, ?_, ?_⟩
  · simp only [de1_setup_fb_with_scaling, de1_fb_release, de1_fb_request,
      dispIoctl, List.nil_append, List.cons_append, List.singleton_append]
    split
    · rename_i hc
      simp at hc
    · split <;> rfl
  · refine ⟨{ fb_mode := 0, mode := 0, buffer_num := 1,
              width := 0, height := 0, output_width := 0, output_height := 0,
              primary_screen_id := scr,
              aux_output_width := 0, aux_output_height := 0,
              line_length := 0, smem_len := 0,
              ch1_offset := 0, ch2_offset := 0 }, ?_⟩
    simp only [de1_setup_fb_with_scaling, de1_fb_release, de1_fb_request,
      dispIoctl, List.nil_append, List.cons_append, List.singleton_append]
    split
    · rename_i hc
      simp at hc
    · split <;> simp
  · simp only [de2_setup_fb_with_scaling, fbOpenCall, fbGetVCall, fbPutVCall]
    split
    · simp
    · split
      · simp
      · split
        · split <;> simp
        · simp

/-- **C9 counterexample**: the claim "a zero-dimension setup call is
rejected with a failure before any device control call" is false: with
all-zero dimensions the DE1 setup succeeds (returns 0) after issuing
two device calls. -/
theorem C9_counterexample :
    (de1_setup_fb_with_scaling env0 0 0 0 0 0 0 32 []).1 = 0 ∧
    (de1_setup_fb_with_scaling env0 0 0 0 0 0 0 32 []).2 ≠ [] := by
  decide

/-- **C4 (amended)**: only the `scale` command rejects an invalid depth
before any device call (it fails with 1 and an empty trace); the
`autoscale` and `noscale` commands also reject an invalid explicit
depth with result 1, but only after their initial framebuffer/screen
queries (device calls) have run — and the `fb set` path performs no
depth validation at all (it is exactly `fb_configure`). -/
theorem C4_depth_validation (env : Env) (scr : Int) (ver : DeVersion)
    (fw fh sw sh : Int) (d : Int)
    (hd : d ≠ 16 ∧ d ≠ 24 ∧ d ≠ 32) :
    cmd_scale env scr ver fw fh sw sh d [] = (1, []) ∧
    (cmd_autoscale env scr ver (some d) []).1 = 1 ∧
    (cmd_noscale env scr ver (some d) []).1 = 1 ∧
    (∀ w h tr, cmd_fb_set env w h d tr = fb_configure env w h d tr) := by
  obtain ⟨h16, h24, h32⟩ := hd
  refine ⟨?_, ?_, ?_, fun w h tr => rfl⟩
  · simp [cmd_scale, h16, h24, h32]
  · simp only [cmd_autoscale]
    split
    · rfl
    · split
      · rfl
      · simp [h16, h24, h32]
  · simp only [cmd_noscale]
    split
    · rfl
    · simp [h16, h24, h32]

/-- **C4 witness**: the amended statement at depth 15 in the
all-succeeding environment. -/
theorem C4_witness :
    cmd_scale env0 0 DeVersion.v1 640 480 1280 720 15 [] = (1, []) ∧
    (cmd_autoscale env0 0 DeVersion.v1 (some 15) []).1 = 1 ∧
    (cmd_noscale env0 0 DeVersion.v1 (some 15) []).1 = 1 ∧
    (∀ w h tr, cmd_fb_set env0 w h 15 tr = fb_configure env0 w h 15 tr) :=
  C4_depth_validation env0 0 DeVersion.v1 640 480 1280 720 15
    (by refine ⟨?_, ?_, ?_⟩ <;> decide)

/-- **C4 counterexample**: the claim that an invalid depth is rejected
before any device call is false. `fb set` with depth 15 is not rejected
at all (it succeeds, result 0) and issues framebuffer device calls; and
`noscale` with depth 15, though it fails with 1, has already issued the
two screen-size display ioctls by then. -/
theorem C4_counterexample :
    (cmd_fb_set env0 640 480 15 []).1 = 0 ∧
    Event.fbOpen ∈ (cmd_fb_set env0 640 480 15 []).2 ∧
    (cmd_noscale env0 0 DeVersion.v1 (some 15) []).1 = 1 ∧
    (cmd_noscale env0 0 DeVersion.v1 (some 15) []).2 =
      [Event.disp DE1_CMD_SCN_GET_WIDTH [0, 0, 0, 0],
       Event.disp DE1_CMD_SCN_GET_HEIGHT [0, 0, 0, 0]] := by
  decide

/-- the raw results of `HDMI_ON`, `HDMI_OFF` and `DEVICE_SWITCH` are 0
or -1 (the syscall convention for these commands) -/
def DriverBinaryResults (env : Env) : Prop :=
  ∀ tr args,
    (env.dispRes tr DE1_CMD_HDMI_ON args = 0 ∨
      env.dispRes tr DE1_CMD_HDMI_ON args = -1) ∧
    (env.dispRes tr DE1_CMD_HDMI_OFF args = 0 ∨
      env.dispRes tr DE1_CMD_HDMI_OFF args = -1) ∧
    (env.dispRes tr DE2_CMD_DEVICE_SWITCH args = 0 ∨
      env.dispRes tr DE2_CMD_DEVICE_SWITCH args = -1)

theorem de1_hdmi_init_ret (env : Env) (scr : Int) (force : Bool)
    (mode : Int) (tr : Trace) (h : DriverBinaryResults env) :
    (de1_hdmi_init env scr force mode tr).1 = 0 ∨
      (de1_hdmi_init env scr force mode tr).1 = -1 := by
  simp only [de1_hdmi_init, de1_hdmi_mode_supported, de1_hdmi_off,
    de1_hdmi_set_mode, de1_hdmi_on, dispIoctl]
  split_ifs <;> simp_all <;> exact (h _ _).1

theorem de2_hdmi_init_ret (env : Env) (scr : Int) (force : Bool)
    (mode : Int) (tr : Trace) (h : DriverBinaryResults env) :
    (de2_hdmi_init env scr force mode tr).1 = 0 ∨
      (de2_hdmi_init env scr force mode tr).1 = -1 := by
  simp only [de2_hdmi_init, de2_hdmi_mode_supported, de2_device_switch,
    dispIoctl]
  split_ifs <;> simp_all <;> exact (h _ _).2.2

theorem hdmi_init_ret (env : Env) (scr : Int) (ver : DeVersion)
    (force : Bool) (mode : Int) (tr : Trace) (h : DriverBinaryResults env) :
    (hdmi_init env scr ver force mode tr).1 = 0 ∨
      (hdmi_init env scr ver force mode tr).1 = -1 := by
  cases ver
  · exact Or.inr rfl
  · exact de1_hdmi_init_ret env scr force mode tr h
  · exact de2_hdmi_init_ret env scr force mode tr h

theorem hdmi_on_ret (env : Env) (scr : Int) (ver : DeVersion)
    (force : Bool) (tr : Trace) (h : DriverBinaryResults env) :
    (hdmi_on env scr ver force tr).1 = 0 ∨
      (hdmi_on env scr ver force tr).1 = -1 := by
  cases ver
  · exact Or.inr rfl
  · simp only [hdmi_on, de1_hdmi_on, dispIoctl]
    split
    · rcases hini : de1_hdmi_init env scr true DEFAULT_HDMI_MODE
          (tr ++ [Event.disp DE1_CMD_HDMI_ON [scr, 0, 0, 0]]) with ⟨r2, tr2⟩
      have hr := de1_hdmi_init_ret env scr true DEFAULT_HDMI_MODE
        (tr ++ [Event.disp DE1_CMD_HDMI_ON [scr, 0, 0, 0]]) h
      rw [hini] at hr
      simpa using hr
    · exact (h _ _).1
  · simp only [hdmi_on]
    rcases hgm : hdmi_get_mode env scr DeVersion.v2 tr with ⟨m, tr1⟩
    rcases hini : de2_hdmi_init env scr true
        (if m ≤ 0 || m == 0 || m == 1 then DEFAULT_HDMI_MODE else m) tr1
      with ⟨r, tr2⟩
    have hr := de2_hdmi_init_ret env scr true
      (if m ≤ 0 || m == 0 || m == 1 then DEFAULT_HDMI_MODE else m) tr1 h
    rw [hini] at hr
    simpa using hr

theorem setup_fb_ret (env : Env) (scr : Int) (ver : DeVersion)
    (fbId fw fh sw sh depth : Int) (tr : Trace) :
    (setup_fb_with_scaling env scr ver fbId fw fh sw sh depth tr).1 = 0 ∨
      (setup_fb_with_scaling env scr ver fbId fw fh sw sh depth tr).1 = -1 := by
  cases ver
  · exact Or.inr rfl
  · simp only [setup_fb_with_scaling, de1_setup_fb_with_scaling,
      de1_fb_release, de1_fb_request, dispIoctl]
    split_ifs <;> simp
  · simp only [setup_fb_with_scaling, de2_setup_fb_with_scaling,
      fbOpenCall, fbGetVCall, fbPutVCall]
    split_ifs <;> (try simp) <;> split <;> simp_all <;> split_ifs <;> simp_all

theorem fb_configure_ret (env : Env) (w hh depth : Int) (tr : Trace) :
    (fb_configure env w hh depth tr).1 = 0 ∨
      (fb_configure env w hh depth tr).1 = -1 := by
  simp only [fb_configure, fbOpenCall, fbGetVCall, fbPutVCall, fbGetFCall]
  split_ifs <;> (try simp) <;> split <;> simp_all <;> split_ifs <;> simp_all

/-- the values `main`'s `ret` can take: 0 (success), 1 (input/usage
failure), -1 (device failure) -/
def MainRet (r : Int) : Prop := r = 0 ∨ r = 1 ∨ r = -1

theorem mainRet_of_binary {r : Int} (h : r = 0 ∨ r = -1) : MainRet r :=
  h.elim Or.inl fun h1 => Or.inr (Or.inr h1)

theorem cmd_hdmi_on_ret (env : Env) (scr : Int) (ver : DeVersion)
    (force : Bool) (tr : Trace) (h : DriverBinaryResults env) :
    MainRet (cmd_hdmi_on env scr ver force tr).1 := by
  have hr := hdmi_on_ret env scr ver force tr h
  rcases hon : hdmi_on env scr ver force tr with ⟨r, f, tr1⟩
  rw [hon] at hr
  simp only [cmd_hdmi_on, hon]
  apply mainRet_of_binary
  rcases hgm : hdmi_get_mode env scr ver tr1 with ⟨m, tr2⟩
  split_ifs <;> simpa using hr

theorem cmd_hdmi_off_ret (env : Env) (scr : Int) (ver : DeVersion)
    (tr : Trace) (h : DriverBinaryResults env) :
    MainRet (cmd_hdmi_off env scr ver tr).1 := by
  apply mainRet_of_binary
  cases ver
  · exact Or.inr rfl
  · exact (h _ _).2.1
  · exact (h _ _).2.2

theorem cmd_hdmi_mode_ret (env : Env) (scr : Int) (ver : DeVersion)
    (force : Bool) (arg : ModeArg) (tr : Trace) (h : DriverBinaryResults env) :
    MainRet (cmd_hdmi_mode env scr ver force arg tr).1 := by
  rcases arg with n | s
  · simp only [cmd_hdmi_mode]
    split_ifs
    · cases hgi : get_mode_info n
      · simp only [hgi]
        exact mainRet_of_binary (hdmi_init_ret env scr ver force n tr h)
      · rename_i info
        simp only [hgi]
        exact mainRet_of_binary (hdmi_init_ret env scr ver force info.mode tr h)
    · cases hfn : find_mode_by_name (intDecimal n)
      · simp only [hfn]
        exact Or.inl rfl
      · rename_i info
        simp only [hfn]
        exact mainRet_of_binary (hdmi_init_ret env scr ver force info.mode tr h)
  · simp only [cmd_hdmi_mode]
    cases hfn : find_mode_by_name s
    · simp only [hfn]
      exact Or.inr (Or.inl rfl)
    · rename_i info
      simp only [hfn]
      exact mainRet_of_binary (hdmi_init_ret env scr ver force info.mode tr h)

theorem cmd_hdmi_init_ret (env : Env) (scr : Int) (ver : DeVersion)
    (force : Bool) (w hh refresh : Int) (tr : Trace)
    (h : DriverBinaryResults env) :
    MainRet (cmd_hdmi_init env scr ver force w hh refresh tr).1 := by
  simp only [cmd_hdmi_init]
  cases hfr : find_mode_by_resolution w hh refresh
  · simp only [hfr]
    exact Or.inr (Or.inl rfl)
  · rename_i info
    simp only [hfr]
    exact mainRet_of_binary (hdmi_init_ret env scr ver force info.mode tr h)

theorem cmd_scale_ret (env : Env) (scr : Int) (ver : DeVersion)
    (fw fh sw sh d : Int) (tr : Trace) :
    MainRet (cmd_scale env scr ver fw fh sw sh d tr).1 := by
  simp only [cmd_scale]
  split_ifs
  · exact Or.inr (Or.inl rfl)
  · exact mainRet_of_binary (setup_fb_ret env scr ver 0 fw fh sw sh d tr)

theorem cmd_autoscale_ret (env : Env) (scr : Int) (ver : DeVersion)
    (dArg : Option Int) (tr : Trace) :
    MainRet (cmd_autoscale env scr ver dArg tr).1 := by
  rcases hfi : get_fb_info_v env tr with ⟨vo, tr1⟩
  rcases vo with _ | v
  · simp only [cmd_autoscale, hfi]
    exact Or.inr (Or.inl rfl)
  · rcases hsz : get_screen_size env scr ver tr1 with ⟨sz, tr2⟩
    rcases sz with _ | ⟨sw, sh⟩
    · simp only [cmd_autoscale, hfi, hsz]
      exact Or.inr (Or.inl rfl)
    · simp only [cmd_autoscale, hfi, hsz]
      split_ifs <;>
        first
          | exact Or.inl rfl
          | exact Or.inr (Or.inl rfl)
          | exact mainRet_of_binary
              (setup_fb_ret env scr ver 0 v.xres v.yres sw sh _ tr2)

theorem cmd_noscale_ret (env : Env) (scr : Int) (ver : DeVersion)
    (dArg : Option Int) (tr : Trace) :
    MainRet (cmd_noscale env scr ver dArg tr).1 := by
  rcases hsz : get_screen_size env scr ver tr with ⟨sz, tr1⟩
  rcases sz with _ | ⟨sw, sh⟩
  · simp only [cmd_noscale, hsz]
    exact Or.inr (Or.inl rfl)
  · rcases dArg with _ | d
    · simp only [cmd_noscale, hsz]
      exact mainRet_of_binary (setup_fb_ret env scr ver 0 sw sh sw sh _ _)
    · simp only [cmd_noscale, hsz]
      split_ifs
      · exact Or.inr (Or.inl rfl)
      · exact mainRet_of_binary (setup_fb_ret env scr ver 0 sw sh sw sh d tr1)

theorem runCmd_ret (env : Env) (scr : Int) (ver : DeVersion) (force : Bool)
    (c : Cmd) (h : DriverBinaryResults env) :
    MainRet (runCmd env scr ver force c).1 := by
  cases c
  · exact cmd_hdmi_on_ret env scr ver force [] h
  · exact cmd_hdmi_off_ret env scr ver [] h
  · exact cmd_hdmi_mode_ret env scr ver force _ [] h
  · exact cmd_hdmi_init_ret env scr ver force _ _ _ [] h
  · exact mainRet_of_binary (fb_configure_ret env _ _ _ [])
  · exact cmd_scale_ret env scr ver _ _ _ _ _ []
  · exact cmd_autoscale_ret env scr ver _ []
  · exact cmd_noscale_ret env scr ver _ []

/-- **C6 (amended)**: for every dispatched command (under the driver
convention that the raw HDMI on/off and device-switch ioctls return 0
or -1), the process exit status is 0 exactly when the command
succeeded, and a handled failure exits with either 1 (malformed or
unknown input) or 255 (a device-call failure: `main` returns the C
value -1, whose low eight bits are 255) — never any other value. -/
theorem C6_exit_status (env : Env) (scr : Int) (ver : DeVersion)
    (force : Bool) (c : Cmd) (h : DriverBinaryResults env) :
    (exitStatus (runCmd env scr ver force c).1 = 0 ∨
      exitStatus (runCmd env scr ver force c).1 = 1 ∨
      exitStatus (runCmd env scr ver force c).1 = 255) ∧
    (exitStatus (runCmd env scr ver force c).1 = 0 ↔
      (runCmd env scr ver force c).1 = 0) := by
  rcases runCmd_ret env scr ver force c h with h0 | h1 | hm
  · rw [h0]
    exact ⟨by decide, by decide⟩
  · rw [h1]
    exact ⟨by decide, by decide⟩
  · rw [hm]
    exact ⟨by decide, by decide⟩

/-- **C6 witness**: in the all-succeeding environment, `hdmi off`
exits with status 0. -/
theorem C6_witness :
    exitStatus (runCmd env0 0 DeVersion.v1 false Cmd.hdmiOff).1 = 0 :=
  ((C6_exit_status env0 0 DeVersion.v1 false Cmd.hdmiOff
      (fun _ _ => ⟨Or.inl rfl, Or.inl rfl, Or.inl rfl⟩)).2).mpr rfl

/-- **C6 counterexample**: the claim that every handled failure exits
with status exactly 1 is false: a failing `hdmi off` (the device switch
returns -1, a handled device failure surfaced by `main`) makes the
process exit with status 255. -/
theorem C6_counterexample :
    (runCmd env_fail 0 DeVersion.v1 false Cmd.hdmiOff).1 = -1 ∧
    exitStatus (runCmd env_fail 0 DeVersion.v1 false Cmd.hdmiOff).1 = 255 := by
  decide
